import Mathlib

/-!
Verification of the WHMCS WhatsApp bridge (src/index.js).

The bridge is a single JavaScript file.  The definitions below are a
shallow embedding of its decision logic:

* the `connection.update` close branch of `connectToWhatsApp`
  (lines 185-203) becomes `handleConnectionClose`, a pure function from
  the close event's data to the ordered list of effects the branch
  performs;
* the credential store (`ensureAuthFolder` / `clearAuthFolder`,
  lines 122-141) becomes a function over an explicit file-system state
  `FsState` that records which primitive operations fail;
* the `messages.upsert` handler (lines 220-256) becomes
  `processedMessages` / `resolvePhone`;
* the `send` / `test_msg`, `status` and `force_reset` branches of the
  catch-all HTTP route (lines 267-348) become `handleSend`,
  `statusLinkage` and `forceReset`.

JavaScript truthiness of the optional strings involved (query
parameters, `err.message`, jid fields) is modelled explicitly: an
absent value is `none` and the empty string is falsy.
-/

namespace WhmcsBridge

/-! ### String helpers mirroring the JavaScript primitives used -/

/-- `charsStartWith s p` is true when `p` is an initial segment of `s`. -/
def charsStartWith : List Char → List Char → Bool
  | _, [] => true
  | [], _ :: _ => false
  | a :: as, b :: bs => a = b && charsStartWith as bs

/-- `charsContain s p` is true when `p` occurs contiguously in `s`. -/
def charsContain : List Char → List Char → Bool
  | [], pat => pat.isEmpty
  | c :: rest, pat => charsStartWith (c :: rest) pat || charsContain rest pat

/-- JavaScript `s.includes(pat)`: substring test. -/
def strIncludes (s pat : String) : Bool :=
  charsContain s.data pat.data

/-- Everything strictly before the first occurrence of `sep`; the whole
list when `sep` does not occur.  -/
def takeBeforeChar : List Char → Char → List Char
  | [], _ => []
  | c :: rest, sep => if c = sep then [] else c :: takeBeforeChar rest sep

/-- JavaScript `s.split(sep)[0]` for a one-character separator. -/
def strTakeBefore (s : String) (sep : Char) : String :=
  String.mk (takeBeforeChar s.data sep)

/-- JavaScript `s.replace(/\D/g, "")`: keep only decimal digits. -/
def digitsOnly (s : String) : String :=
  String.mk (s.data.filter Char.isDigit)

/-- JavaScript `a || b` on two optional strings, where an absent value
and the empty string are falsy. -/
def jsOrS : Option String → Option String → Option String
  | some s, b => if s = "" then b else some s
  | none, b => b

/-- JavaScript `a || d` with a string literal default. -/
def jsOrDefault (v : Option String) (d : String) : String :=
  match v with
  | some s => if s = "" then d else s
  | none => d

/-! ### Connection close handling (src/index.js lines 185-203)

The `connection === "close"` branch runs, in source order:
`isConnected = false`, `fullErrorInfo = { message: reason, code:
statusCode }`, then either the fatal-auth branch (status message,
`clearAuthFolder()`, `setTimeout(connectToWhatsApp, 10000)`) or the
other branch (status message, and `setTimeout(connectToWhatsApp, 5000)`
unless the status code equals `DisconnectReason.loggedOut`).  We embed
the branch as the ordered list of these effects.  The numeric value of
`DisconnectReason.loggedOut` belongs to the external baileys library,
so it is kept abstract as the parameter `loggedOutCode`. -/

/-- One observable effect of the close branch, in execution order. -/
inductive CloseAction where
  /-- `isConnected = false` -/
  | markDisconnected : CloseAction
  /-- `fullErrorInfo = { message, code }` -/
  | recordError (message : String) (code : Option Nat) : CloseAction
  /-- assignment to `bridgeStatus` -/
  | setStatus (status : String) : CloseAction
  /-- `clearAuthFolder()` -/
  | clearAuth : CloseAction
  /-- `setTimeout(connectToWhatsApp, delayMs)` -/
  | scheduleReconnect (delayMs : Nat) : CloseAction
deriving DecidableEq, Repr

/-- The test `statusCode === 401 || reason.includes("conflict") ||
reason.includes("device_removed")` (line 195). -/
def fatalAuthClose (statusCode : Option Nat) (reason : String) : Bool :=
  decide (statusCode = some 401) || strIncludes reason "conflict"
    || strIncludes reason "device_removed"

/-- String interpolation of `statusCode` into the status message;
`undefined` is how JavaScript prints an absent code. -/
def showStatusCode : Option Nat → String
  | some n => toString n
  | none => "undefined"

/-- The close branch of the `connection.update` handler (lines 185-203)
as the ordered list of effects it performs.  `statusCode` is
`lastDisconnect?.error?.output?.statusCode` and `reason` is
`lastDisconnect?.error?.message || ""`. -/
def handleConnectionClose (loggedOutCode : Nat) (statusCode : Option Nat)
    (reason : String) : List CloseAction :=
  [CloseAction.markDisconnected, CloseAction.recordError reason statusCode] ++
  (if fatalAuthClose statusCode reason then
    [CloseAction.setStatus "Auth Session Error. Resetting in 10s...",
     CloseAction.clearAuth,
     CloseAction.scheduleReconnect 10000]
  else
    [CloseAction.setStatus
        ("Disconnected (" ++ showStatusCode statusCode ++ "). Reconnecting...")] ++
    (if statusCode = some loggedOutCode then []
     else [CloseAction.scheduleReconnect 5000]))

/-! ### Credential store (src/index.js lines 120-143)

The credential store is the directory `auth_info`.  We model the parts
of the file system the two functions touch: whether the directory
exists, which files it holds, and which primitive calls fail
(`unlinkSync` per file, `readdirSync`, `rmSync`, `mkdirSync`).  A
failing primitive throws in JavaScript; the `catch` structure of the
source decides what that does. -/

/-- File-system state around the `auth_info` directory, together with
the failure behaviour of the primitives `clearAuthFolder` and
`ensureAuthFolder` invoke. -/
structure FsState where
  /-- `fs.existsSync(authPath)` -/
  authDirExists : Bool
  /-- the files `fs.readdirSync(authPath)` returns -/
  authFiles : List String
  /-- file names whose `fs.unlinkSync` throws -/
  unlinkFails : List String
  /-- whether `fs.readdirSync(authPath)` throws -/
  readdirFails : Bool
  /-- whether `fs.rmSync(authPath, {recursive, force})` throws -/
  rmFails : Bool
  /-- whether `fs.mkdirSync(authPath, {recursive})` throws -/
  mkdirFails : Bool
deriving DecidableEq, Repr

/-- `ensureAuthFolder` (lines 122-126): create the directory when it is
missing; a `mkdirSync` failure is swallowed. -/
def ensureAuthFolder (fs : FsState) : FsState :=
  if fs.authDirExists then fs
  else if fs.mkdirFails then fs
  else { fs with authDirExists := true, authFiles := [] }

/-- `clearAuthFolder` (lines 128-141).  The outer `try` covers the
existence check, the directory enumeration and the unlink loop, but
each `unlinkSync` sits in its own `try { } catch (e) { }`, so a failing
unlink is skipped silently and only a throwing `readdirSync` reaches
the outer `catch`, whose `rmSync` fallback (itself allowed to fail) is
recorded in the returned flag.  `ensureAuthFolder()` always runs last.
Returns the new state and whether the wholesale `rmSync` fallback was
attempted. -/
def clearAuthFolder (fs : FsState) : FsState × Bool :=
  let step :=
    if fs.authDirExists then
      if fs.readdirFails then
        (if fs.rmFails then fs
         else { fs with authDirExists := false, authFiles := [] }, true)
      else
        let kept := fs.authFiles.filter (fun f => fs.unlinkFails.contains f)
        ({ fs with authFiles := kept }, false)
    else (fs, false)
  (ensureAuthFolder step.1, step.2)

/-- Interpretation of one close-branch effect on the file system: only
`clearAuth` touches it. -/
def applyCloseAction (fs : FsState) : CloseAction → FsState
  | CloseAction.clearAuth => (clearAuthFolder fs).1
  | _ => fs

/-- Interpretation of the close branch's effect list on the file
system. -/
def applyCloseActions (fs : FsState) (l : List CloseAction) : FsState :=
  l.foldl applyCloseAction fs

/-! ### Shared bridge state and the `status` / `force_reset` routes -/

/-- `aiSettings` (line 58). -/
structure AiSettings where
  key : String
  model : String
  prompt : String
deriving DecidableEq, Repr

/-- The process-wide mutable variables of src/index.js (lines 47-58)
that the HTTP routes read or write.  `errorInfo` is `fullErrorInfo`
(`null`, or `{ message, code }`). -/
structure BridgeState where
  isConnected : Bool
  qrCode : Option String
  pairingCode : Option String
  bridgeStatus : String
  errorInfo : Option (String × Option Nat)
  adminUrl : String
  apiKey : String
  aiSettings : AiSettings
deriving DecidableEq, Repr

/-- The fields of the `status` JSON response (lines 295-304) that come
from the shared mutable state; `number`, `pid` and `uptime` come from
the socket object and process context and carry no decision logic. -/
structure StatusSnapshot where
  connected : Bool
  qr : Option String
  pairingCode : Option String
  message : String
  debug : Option (String × Option Nat)
deriving DecidableEq, Repr

/-- The state-derived part of the `status` response (lines 295-304). -/
def statusSnapshot (st : BridgeState) : StatusSnapshot :=
  { connected := st.isConnected
    qr := st.qrCode
    pairingCode := st.pairingCode
    message := st.bridgeStatus
    debug := st.errorInfo }

/-- The `force_reset` branch (lines 337-342): `isConnected = false`,
`clearAuthFolder()`, then a best-effort `sock.logout()` whose failure
is swallowed and which touches no modelled state. -/
def forceReset (st : BridgeState) (fs : FsState) : BridgeState × FsState :=
  ({ st with isConnected := false }, (clearAuthFolder fs).1)

/-! ### Inbound message handling (src/index.js lines 220-256) -/

/-- The fields of `msg.key` the handler reads. -/
structure MsgKey where
  remoteJid : String
  fromMe : Bool
  senderPn : Option String
  participant : Option String
deriving DecidableEq, Repr

/-- The fields of `msg.message` the handler reads: `conversation` and
`extendedTextMessage?.text`. -/
structure MsgContent where
  conversation : Option String
  extendedText : Option String
deriving DecidableEq, Repr

/-- One element of the `messages` array of a `messages.upsert` event;
`message` is `none` when `msg.message` is null/undefined, and
`participant` is the top-level `msg.participant`. -/
structure InboundMsg where
  key : MsgKey
  participant : Option String
  message : Option MsgContent
deriving DecidableEq, Repr

/-- `msg.message.conversation || msg.message.extendedTextMessage?.text`
followed by the `if (!text) return` truthiness check (lines 226-227):
the truthy text, or `none`. -/
def msgText (m : InboundMsg) : Option String :=
  match m.message with
  | none => none
  | some c =>
    match jsOrS c.conversation c.extendedText with
    | some t => if t = "" then none else some t
    | none => none

/-- Phone-number resolution (lines 229-238): start from
`sender.split("@")[0]`; when the sender jid contains `"@lid"`, take
`msg.key.senderPn || msg.key.participant || msg.participant` and use
its local part instead, but only when that (truthy) value contains
`"@s.whatsapp.net"`. -/
def resolvePhone (m : InboundMsg) : String :=
  if strIncludes m.key.remoteJid "@lid" = true then
    match jsOrS m.key.senderPn (jsOrS m.key.participant m.participant) with
    | some p =>
      if p ≠ "" ∧ strIncludes p "@s.whatsapp.net" = true then strTakeBefore p '@'
      else strTakeBefore m.key.remoteJid '@'
    | none => strTakeBefore m.key.remoteJid '@'
  else strTakeBefore m.key.remoteJid '@'

/-- Processing of the single message the handler looks at
(`messages[0]`, lines 222-243): dropped when it has no `message`
payload, is self-originated, or has no truthy text; otherwise the
`(phone, text)` pair that is logged to WHMCS and considered for an AI
reply. -/
def processFirst (m : InboundMsg) : List (String × String) :=
  if m.message.isNone || m.key.fromMe then []
  else
    match msgText m with
    | none => []
    | some t => [(resolvePhone m, t)]

/-- The `messages.upsert` handler (lines 220-256) as the list of
`(phone, text)` pairs it processes: nothing unless `type` is
`"notify"`, and in a notify batch only `messages[0]` is examined. -/
def processedMessages (t : String) (msgs : List InboundMsg) :
    List (String × String) :=
  if t = "notify" then
    match msgs with
    | [] => []
    | m :: _ => processFirst m
  else []

/-! ### The `send` / `test_msg` route (src/index.js lines 315-335) -/

/-- Everything the `send` / `test_msg` branch observably does: the HTTP
response (status, error text, returned message id and jid), the message
handed to `sock.sendMessage`, and the outbound `logToWhmcs` call. -/
structure SendOutcome where
  httpStatus : Nat
  errorMsg : Option String
  messageId : Option String
  targetJid : Option String
  sentText : Option String
  loggedPhone : Option String
  loggedText : Option String
deriving DecidableEq, Repr

/-- Target resolution (lines 316-317): `req.query.to`, or for
`test_msg` when that is falsy, `sock?.user?.id?.split(":")[0]`
(`ownId` is `sock?.user?.id`). -/
def resolveTarget (action : String) (queryTo ownId : Option String) :
    Option String :=
  match queryTo with
  | some t =>
    if t = "" ∧ action = "test_msg" then ownId.map (fun i => strTakeBefore i ':')
    else some t
  | none =>
    if action = "test_msg" then ownId.map (fun i => strTakeBefore i ':')
    else none

/-- The `send` / `test_msg` branch (lines 315-335): resolve the target,
answer 500 when not connected, 400 when the target is still falsy, and
otherwise send `req.query.message || "WHMCS Bridge Test Message"` to
`digits(target)@s.whatsapp.net`, log it outbound, and answer success
with the id the socket assigned (`assignedId` models
`result.key.id`). -/
def handleSend (action : String) (queryTo queryMessage : Option String)
    (isConnected : Bool) (ownId : Option String) (assignedId : String) :
    SendOutcome :=
  let target := resolveTarget action queryTo ownId
  if isConnected = false then
    { httpStatus := 500, errorMsg := some "Bridge not connected",
      messageId := none, targetJid := none, sentText := none,
      loggedPhone := none, loggedText := none }
  else
    match target with
    | none =>
      { httpStatus := 400, errorMsg := some "No target number",
        messageId := none, targetJid := none, sentText := none,
        loggedPhone := none, loggedText := none }
    | some t =>
      if t = "" then
        { httpStatus := 400, errorMsg := some "No target number",
          messageId := none, targetJid := none, sentText := none,
          loggedPhone := none, loggedText := none }
      else
        let clean := digitsOnly t
        let jid := clean ++ "@s.whatsapp.net"
        let text := jsOrDefault queryMessage "WHMCS Bridge Test Message"
        { httpStatus := 200, errorMsg := none,
          messageId := some assignedId, targetJid := some jid,
          sentText := some text, loggedPhone := some clean,
          loggedText := some text }

/-! ### The `status` route's linkage side effects (lines 271-293) -/

/-- Result of the three linkage steps at the top of the `status`
branch: the new key and admin URL, and whether `fetchAiSettings()` was
triggered by the explicit-parameter step or by the referrer step. -/
structure LinkOutcome where
  apiKey : String
  adminUrl : String
  fetchedExplicit : Bool
  fetchedReferer : Bool
deriving DecidableEq, Repr

/-- The explicit-parameter step (lines 279-283): adopt a truthy
`req.query.admin_url` that differs from the current one and trigger a
settings fetch.  Returns the admin URL afterwards and whether the fetch
fired. -/
def explicitAdminUrl (queryAdminUrl : Option String) (adminUrl0 : String) :
    String × Bool :=
  match queryAdminUrl with
  | some u => if u ≠ "" ∧ adminUrl0 ≠ u then (u, true) else (adminUrl0, false)
  | none => (adminUrl0, false)

/-- The linkage side effects of the `status` branch (lines 271-293):
key sync from a truthy differing `req.query.key`, explicit
`admin_url` adoption, then referrer auto-detection, which runs only
when the admin URL is still empty and the referrer contains
`"addonmodules.php"`, in which case it adopts `referer.split("&")[0]`
and triggers a settings fetch. -/
def statusLinkage (queryKey queryAdminUrl referer : Option String)
    (apiKey0 adminUrl0 : String) : LinkOutcome :=
  let key1 :=
    match queryKey with
    | some k => if k ≠ "" ∧ k ≠ apiKey0 then k else apiKey0
    | none => apiKey0
  let e := explicitAdminUrl queryAdminUrl adminUrl0
  let r :=
    match referer with
    | some ref =>
      if e.1 = "" ∧ ref ≠ "" ∧ strIncludes ref "addonmodules.php" = true then
        (strTakeBefore ref '&', true)
      else (e.1, false)
    | none => (e.1, false)
  { apiKey := key1, adminUrl := r.1, fetchedExplicit := e.2,
    fetchedReferer := r.2 }

/-! ### Concrete fixtures used by the theorems below -/

/-- A first, qualifying inbound message: textual, not self-originated. -/
def mAlice : InboundMsg :=
  { key := { remoteJid := "111@s.whatsapp.net", fromMe := false,
             senderPn := none, participant := none },
    participant := none,
    message := some { conversation := some "hello", extendedText := none } }

/-- A second, equally qualifying inbound message in the same batch. -/
def mBob : InboundMsg :=
  { key := { remoteJid := "222@s.whatsapp.net", fromMe := false,
             senderPn := none, participant := none },
    participant := none,
    message := some { conversation := some "world", extendedText := none } }

/-- A self-originated message (echo of the bridge's own account). -/
def mSelf : InboundMsg :=
  { key := { remoteJid := "111@s.whatsapp.net", fromMe := true,
             senderPn := none, participant := none },
    participant := none,
    message := some { conversation := some "me", extendedText := none } }

/-- A message whose payload carries no truthy text (empty extended
text, no conversation). -/
def mNoText : InboundMsg :=
  { key := { remoteJid := "111@s.whatsapp.net", fromMe := false,
             senderPn := none, participant := none },
    participant := none,
    message := some { conversation := none, extendedText := some "" } }

/-- An anonymized sender whose first truthy fallback field
(`senderPn`) lacks the phone suffix while the next field
(`key.participant`) carries it. -/
def mLid : InboundMsg :=
  { key := { remoteJid := "555@lid", fromMe := false,
             senderPn := some "9@lid",
             participant := some "123@s.whatsapp.net" },
    participant := none,
    message := some { conversation := some "hi", extendedText := none } }

/-- An anonymized sender whose first truthy fallback field
(`senderPn`) itself carries the phone suffix. -/
def mLidPn : InboundMsg :=
  { key := { remoteJid := "555@lid", fromMe := false,
             senderPn := some "321@s.whatsapp.net",
             participant := none },
    participant := none,
    message := some { conversation := some "hi", extendedText := none } }

/-- A fully anonymized sender with no accompanying fields at all. -/
def mLidBare : InboundMsg :=
  { key := { remoteJid := "777@lid", fromMe := false,
             senderPn := none, participant := none },
    participant := none,
    message := some { conversation := some "hey", extendedText := none } }

/-- A credential directory holding one file whose individual removal
fails; every other primitive succeeds. -/
def fsUnlinkStuck : FsState :=
  { authDirExists := true, authFiles := ["creds.json"],
    unlinkFails := ["creds.json"], readdirFails := false,
    rmFails := false, mkdirFails := false }

/-- A credential directory whose enumeration throws; every other
primitive succeeds. -/
def fsReaddirStuck : FsState :=
  { authDirExists := true, authFiles := ["a.json", "b.json"],
    unlinkFails := [], readdirFails := true,
    rmFails := false, mkdirFails := false }

/-- A healthy credential directory holding one file; no primitive
fails. -/
def fsClean : FsState :=
  { authDirExists := true, authFiles := ["creds.json"],
    unlinkFails := [], readdirFails := false,
    rmFails := false, mkdirFails := false }

/-- A connected bridge state with a stale QR code, pairing code and
error record. -/
def stStale : BridgeState :=
  { isConnected := true, qrCode := some "data:image/png;base64,AAA",
    pairingCode := some "12345678", bridgeStatus := "Connected!",
    errorInfo := some ("old error", some 515),
    adminUrl := "https://x.test/addon.php", apiKey := "ABC",
    aiSettings := { key := "k", model := "m", prompt := "p" } }

/-! ### Claims C1-C3: the connection-close policy -/

/-- C1: for every connection-close event whose status code is 401 or
whose message contains "conflict" or "device_removed", the handler
emits exactly the fatal-auth effect sequence — error recorded, status
set, credential store cleared, and a reconnect scheduled after 10000 ms
— and the credential clearing strictly precedes the scheduling of the
next connection attempt. -/
theorem c1_fatal_auth_close (lo : Nat) (code : Option Nat) (reason : String)
    (h : code = some 401 ∨ strIncludes reason "conflict" = true ∨
      strIncludes reason "device_removed" = true) :
    handleConnectionClose lo code reason =
      [CloseAction.markDisconnected, CloseAction.recordError reason code,
       CloseAction.setStatus "Auth Session Error. Resetting in 10s...",
       CloseAction.clearAuth, CloseAction.scheduleReconnect 10000] ∧
    ∃ i j, i < j ∧
      (handleConnectionClose lo code reason).get? i = some CloseAction.clearAuth ∧
      (handleConnectionClose lo code reason).get? j =
        some (CloseAction.scheduleReconnect 10000) := by
  have hf : fatalAuthClose code reason = true := by
    unfold fatalAuthClose
    rcases h with h | h | h <;> simp [h]
  have he : handleConnectionClose lo code reason =
      [CloseAction.markDisconnected, CloseAction.recordError reason code,
       CloseAction.setStatus "Auth Session Error. Resetting in 10s...",
       CloseAction.clearAuth, CloseAction.scheduleReconnect 10000] := by
    simp [handleConnectionClose, hf]
  exact ⟨he, 3, 4, by omega, by rw [he]; rfl, by rw [he]; rfl⟩

/-- Witness for `c1_fatal_auth_close` at the concrete close event
`statusCode = 401`, empty message. -/
theorem c1_fatal_auth_close_witness :
    ((some 401 : Option Nat) = some 401 ∨ strIncludes "" "conflict" = true ∨
      strIncludes "" "device_removed" = true) ∧
    (handleConnectionClose 999 (some 401) "" =
      [CloseAction.markDisconnected, CloseAction.recordError "" (some 401),
       CloseAction.setStatus "Auth Session Error. Resetting in 10s...",
       CloseAction.clearAuth, CloseAction.scheduleReconnect 10000] ∧
    ∃ i j, i < j ∧
      (handleConnectionClose 999 (some 401) "").get? i = some CloseAction.clearAuth ∧
      (handleConnectionClose 999 (some 401) "").get? j =
        some (CloseAction.scheduleReconnect 10000)) :=
  ⟨Or.inl rfl, c1_fatal_auth_close 999 (some 401) "" (Or.inl rfl)⟩

/-- C2 counterexample: the claim says that for every close event whose
status code equals the logged-out code no reconnect is ever scheduled,
but the fatal-auth test runs first: here the status code equals the
logged-out code (instantiated as 500) while the message carries the
"conflict" marker, and a reconnect after 10000 ms is scheduled. -/
theorem c2_counterexample :
    (some 500 : Option Nat) = some 500 ∧
    CloseAction.scheduleReconnect 10000 ∈
      handleConnectionClose 500 (some 500) "Stream Errored (conflict)" := by
  decide

/-- C2 amended: for every close event whose status code equals the
logged-out code AND which the fatal-auth test (401 / conflict /
device-removed) does not capture, no reconnect is scheduled: the
handler only records the error and sets the status. -/
theorem c2_terminal_no_reconnect (lo : Nat) (code : Option Nat) (reason : String)
    (h1 : fatalAuthClose code reason = false) (h2 : code = some lo) :
    handleConnectionClose lo code reason =
      [CloseAction.markDisconnected, CloseAction.recordError reason code,
       CloseAction.setStatus
         ("Disconnected (" ++ showStatusCode code ++ "). Reconnecting...")] ∧
    ∀ d, CloseAction.scheduleReconnect d ∉ handleConnectionClose lo code reason := by
  have he : handleConnectionClose lo code reason =
      [CloseAction.markDisconnected, CloseAction.recordError reason code,
       CloseAction.setStatus
         ("Disconnected (" ++ showStatusCode code ++ "). Reconnecting...")] := by
    subst h2
    simp [handleConnectionClose, h1]
  refine ⟨he, ?_⟩
  intro d
  rw [he]
  simp

/-- Witness for `c2_terminal_no_reconnect` at a clean logged-out close
(logged-out code instantiated as 999). -/
theorem c2_terminal_no_reconnect_witness :
    (fatalAuthClose (some 999) "" = false ∧ (some 999 : Option Nat) = some 999) ∧
    handleConnectionClose 999 (some 999) "" =
      [CloseAction.markDisconnected, CloseAction.recordError "" (some 999),
       CloseAction.setStatus
         ("Disconnected (" ++ showStatusCode (some 999) ++ "). Reconnecting...")] ∧
    CloseAction.scheduleReconnect 5000 ∉ handleConnectionClose 999 (some 999) "" ∧
    CloseAction.scheduleReconnect 10000 ∉ handleConnectionClose 999 (some 999) "" :=
  ⟨⟨by decide, rfl⟩,
    (c2_terminal_no_reconnect 999 (some 999) "" (by decide) rfl).1,
    (c2_terminal_no_reconnect 999 (some 999) "" (by decide) rfl).2 5000,
    (c2_terminal_no_reconnect 999 (some 999) "" (by decide) rfl).2 10000⟩

/-- C3: for every close event that is neither fatal-auth (401 /
conflict / device_removed) nor carries the logged-out code, the handler
records the error, sets the status and schedules a reconnect after
5000 ms; no credential clearing is emitted, and interpreting the whole
effect sequence on any file-system state leaves it unchanged (no file
of the credential directory is removed). -/
theorem c3_transient_close (lo : Nat) (code : Option Nat) (reason : String)
    (h1 : fatalAuthClose code reason = false) (h2 : code ≠ some lo) :
    handleConnectionClose lo code reason =
      [CloseAction.markDisconnected, CloseAction.recordError reason code,
       CloseAction.setStatus
         ("Disconnected (" ++ showStatusCode code ++ "). Reconnecting..."),
       CloseAction.scheduleReconnect 5000] ∧
    CloseAction.clearAuth ∉ handleConnectionClose lo code reason ∧
    ∀ fs : FsState, applyCloseActions fs (handleConnectionClose lo code reason) = fs := by
  have he : handleConnectionClose lo code reason =
      [CloseAction.markDisconnected, CloseAction.recordError reason code,
       CloseAction.setStatus
         ("Disconnected (" ++ showStatusCode code ++ "). Reconnecting..."),
       CloseAction.scheduleReconnect 5000] := by
    simp [handleConnectionClose, h1, h2]
  refine ⟨he, ?_, ?_⟩
  · rw [he]; simp
  · intro fs
    rw [he]
    simp [applyCloseActions, applyCloseAction]

/-- Witness for `c3_transient_close` at the concrete transient close
`statusCode = 428`, message "Connection Closed", logged-out code
instantiated as 999. -/
theorem c3_transient_close_witness :
    (fatalAuthClose (some 428) "Connection Closed" = false ∧
      (some 428 : Option Nat) ≠ some 999) ∧
    handleConnectionClose 999 (some 428) "Connection Closed" =
      [CloseAction.markDisconnected,
       CloseAction.recordError "Connection Closed" (some 428),
       CloseAction.setStatus
         ("Disconnected (" ++ showStatusCode (some 428) ++ "). Reconnecting..."),
       CloseAction.scheduleReconnect 5000] ∧
    CloseAction.clearAuth ∉ handleConnectionClose 999 (some 428) "Connection Closed" ∧
    applyCloseActions fsClean
      (handleConnectionClose 999 (some 428) "Connection Closed") = fsClean :=
  ⟨⟨by decide, by decide⟩,
    (c3_transient_close 999 (some 428) "Connection Closed" (by decide) (by decide)).1,
    (c3_transient_close 999 (some 428) "Connection Closed" (by decide) (by decide)).2.1,
    (c3_transient_close 999 (some 428) "Connection Closed" (by decide) (by decide)).2.2 fsClean⟩

/-! ### Claim C7: resilience of the credential-store clear -/

/-- Shared helper: when no individual removal fails, the wholesale
removal does not fail, and recreation does not fail, clearing leaves an
existing, empty credential directory; the wholesale fallback is
attempted exactly when the directory exists and its enumeration
throws. -/
theorem clearAuthFolder_clean (fs : FsState) (h1 : fs.unlinkFails = [])
    (h2 : fs.rmFails = false) (h3 : fs.mkdirFails = false) :
    (clearAuthFolder fs).1.authDirExists = true ∧
    (clearAuthFolder fs).1.authFiles = [] ∧
    (clearAuthFolder fs).2 = (fs.authDirExists && fs.readdirFails) := by
  obtain ⟨de, files, uf, rf, rm, mk⟩ := fs
  simp only at h1 h2 h3
  subst h1; subst h2; subst h3
  cases de <;> cases rf <;>
    simp [clearAuthFolder, ensureAuthFolder, List.contains]

/-- C7 counterexample: a credential directory holding one file whose
individual removal fails.  The claim says a failing per-item removal
triggers wholesale removal of the location and that the location is
empty afterwards; in the code the per-item failure is swallowed by its
own inner catch, so the wholesale fallback is never attempted and the
file survives the clear. -/
theorem c7_counterexample :
    fsUnlinkStuck.authFiles = ["creds.json"] ∧
    fsUnlinkStuck.unlinkFails = ["creds.json"] ∧
    (clearAuthFolder fsUnlinkStuck).2 = false ∧
    (clearAuthFolder fsUnlinkStuck).1.authFiles = ["creds.json"] := by
  decide

/-- C7 amended: the wholesale-removal fallback of `clearAuthFolder`
fires exactly when enumerating the credential directory fails, not when
removing an individual file fails — individually failing files are
skipped and left in place — and afterwards the directory always exists
again when nothing else fails, so that with no per-item failure a
subsequent load finds a valid empty location. -/
theorem c7_clear_resilient (fs : FsState) :
    (fs.authDirExists = true → fs.readdirFails = true →
      (clearAuthFolder fs).2 = true) ∧
    (fs.authDirExists = true → fs.readdirFails = false →
      (clearAuthFolder fs).2 = false ∧
      (clearAuthFolder fs).1.authFiles =
        fs.authFiles.filter (fun f => fs.unlinkFails.contains f)) ∧
    (fs.unlinkFails = [] → fs.rmFails = false → fs.mkdirFails = false →
      (clearAuthFolder fs).1.authDirExists = true ∧
      (clearAuthFolder fs).1.authFiles = []) := by
  refine ⟨?_, ?_, ?_⟩
  · intro hd hr
    simp [clearAuthFolder, hd, hr]
  · intro hd hr
    simp [clearAuthFolder, ensureAuthFolder, hd, hr]
  · intro h1 h2 h3
    exact ⟨(clearAuthFolder_clean fs h1 h2 h3).1, (clearAuthFolder_clean fs h1 h2 h3).2.1⟩

/-- Witness for `c7_clear_resilient` at a directory with two files and
failing enumeration. -/
theorem c7_clear_resilient_witness :
    (clearAuthFolder fsReaddirStuck).2 = true ∧
    (clearAuthFolder fsReaddirStuck).1.authDirExists = true ∧
    (clearAuthFolder fsReaddirStuck).1.authFiles = [] := by
  have h := c7_clear_resilient fsReaddirStuck
  exact ⟨h.1 rfl rfl, (h.2.2 rfl rfl rfl).1, (h.2.2 rfl rfl rfl).2⟩

/-! ### Claim C9: frame of `force_reset` -/

/-- C9: `force_reset` clears the connected flag and (when no
file-system primitive fails) the persisted credentials, and leaves
every other piece of shared state unchanged — QR code, pairing code,
status message, last-error record, admin URL, API key and AI settings —
so the status snapshot taken immediately afterwards still exposes the
stale QR code, pairing code and error record. -/
theorem c9_force_reset_frame (st : BridgeState) (fs : FsState) :
    (forceReset st fs).1.isConnected = false ∧
    (forceReset st fs).1.qrCode = st.qrCode ∧
    (forceReset st fs).1.pairingCode = st.pairingCode ∧
    (forceReset st fs).1.bridgeStatus = st.bridgeStatus ∧
    (forceReset st fs).1.errorInfo = st.errorInfo ∧
    (forceReset st fs).1.adminUrl = st.adminUrl ∧
    (forceReset st fs).1.apiKey = st.apiKey ∧
    (forceReset st fs).1.aiSettings = st.aiSettings ∧
    statusSnapshot (forceReset st fs).1 =
      { connected := false, qr := st.qrCode, pairingCode := st.pairingCode,
        message := st.bridgeStatus, debug := st.errorInfo } ∧
    (fs.unlinkFails = [] → fs.rmFails = false → fs.mkdirFails = false →
      (forceReset st fs).2.authDirExists = true ∧
      (forceReset st fs).2.authFiles = []) := by
  refine ⟨rfl, rfl, rfl, rfl, rfl, rfl, rfl, rfl, rfl, ?_⟩
  intro h1 h2 h3
  exact ⟨(clearAuthFolder_clean fs h1 h2 h3).1, (clearAuthFolder_clean fs h1 h2 h3).2.1⟩

/-- Witness for `c9_force_reset_frame` at a concrete connected state
with stale QR, pairing code and error record. -/
theorem c9_force_reset_frame_witness :
    (forceReset stStale fsClean).1.isConnected = false ∧
    (forceReset stStale fsClean).1.qrCode = stStale.qrCode ∧
    (forceReset stStale fsClean).1.pairingCode = stStale.pairingCode ∧
    (forceReset stStale fsClean).1.bridgeStatus = stStale.bridgeStatus ∧
    (forceReset stStale fsClean).1.errorInfo = stStale.errorInfo ∧
    (forceReset stStale fsClean).1.adminUrl = stStale.adminUrl ∧
    (forceReset stStale fsClean).1.apiKey = stStale.apiKey ∧
    (forceReset stStale fsClean).1.aiSettings = stStale.aiSettings ∧
    statusSnapshot (forceReset stStale fsClean).1 =
      { connected := false, qr := stStale.qrCode,
        pairingCode := stStale.pairingCode,
        message := stStale.bridgeStatus, debug := stStale.errorInfo } ∧
    (forceReset stStale fsClean).2.authDirExists = true ∧
    (forceReset stStale fsClean).2.authFiles = [] := by
  have h := c9_force_reset_frame stStale fsClean
  exact ⟨h.1, h.2.1, h.2.2.1, h.2.2.2.1, h.2.2.2.2.1, h.2.2.2.2.2.1,
    h.2.2.2.2.2.2.1, h.2.2.2.2.2.2.2.1, h.2.2.2.2.2.2.2.2.1,
    (h.2.2.2.2.2.2.2.2.2 rfl rfl rfl).1, (h.2.2.2.2.2.2.2.2.2 rfl rfl rfl).2⟩

/-! ### Claim C4: per-batch message processing -/

/-- C4 counterexample: the claim says every qualifying message of a
"notify" batch is processed, but the handler reads only `messages[0]`:
in a two-message batch whose second message is textual and not
self-originated, only the first message's pair is processed and the
second one's is absent. -/
theorem c4_counterexample :
    mBob.key.fromMe = false ∧ msgText mBob = some "world" ∧
    processedMessages "notify" [mAlice, mBob] = [("111", "hello")] ∧
    (resolvePhone mBob, "world") ∉ processedMessages "notify" [mAlice, mBob] := by
  decide

/-- C4 amended: a batch not tagged "notify" is ignored entirely; in a
"notify" batch only the first message is examined — the rest of the
batch never influences the outcome — and that first message is
processed exactly when it carries a message payload with truthy text
and is not self-originated: a self-originated or text-less first
message yields no processing at all, while a qualifying one yields
exactly its own (phone, text) pair. -/
theorem c4_first_message_only (t : String) (m : InboundMsg)
    (rest rest2 : List InboundMsg) (h : t ≠ "notify") :
    processedMessages t (m :: rest) = [] ∧
    processedMessages "notify" (m :: rest) = processedMessages "notify" (m :: rest2) ∧
    (m.key.fromMe = true → processedMessages "notify" (m :: rest) = []) ∧
    (msgText m = none → processedMessages "notify" (m :: rest) = []) ∧
    (m.key.fromMe = false → ∀ s, msgText m = some s →
      processedMessages "notify" (m :: rest) = [(resolvePhone m, s)]) := by
  refine ⟨by simp [processedMessages, h], by simp [processedMessages], ?_, ?_, ?_⟩
  · intro hf
    simp [processedMessages, processFirst, hf]
  · intro hmt
    simp [processedMessages, processFirst, hmt]
  · intro hf s hs
    have hn : m.message.isNone = false := by
      cases hx : m.message
      · simp [msgText, hx] at hs
      · simp [hx]
    simp [processedMessages, processFirst, hf, hn, hs]

/-- Witness for `c4_first_message_only` at the two concrete messages
and the non-notify tag "append". -/
theorem c4_first_message_only_witness :
    ("append" ≠ "notify" ∧ mAlice.key.fromMe = false ∧
      msgText mAlice = some "hello" ∧ mSelf.key.fromMe = true ∧
      msgText mNoText = none) ∧
    processedMessages "append" (mAlice :: [mBob]) = [] ∧
    processedMessages "notify" (mAlice :: [mBob]) =
      processedMessages "notify" (mAlice :: []) ∧
    processedMessages "notify" (mAlice :: [mBob]) = [(resolvePhone mAlice, "hello")] ∧
    processedMessages "notify" (mSelf :: [mBob]) = [] ∧
    processedMessages "notify" (mNoText :: [mBob]) = [] :=
  ⟨⟨by decide, by decide, by decide, by decide, by decide⟩,
    (c4_first_message_only "append" mAlice [mBob] [] (by decide)).1,
    (c4_first_message_only "append" mAlice [mBob] [] (by decide)).2.1,
    (c4_first_message_only "append" mAlice [mBob] [] (by decide)).2.2.2.2
      (by decide) "hello" (by decide),
    (c4_first_message_only "append" mSelf [mBob] [] (by decide)).2.2.1 (by decide),
    (c4_first_message_only "append" mNoText [mBob] [] (by decide)).2.2.2.1 (by decide)⟩

/-! ### Claim C5: phone-number resolution for anonymized senders -/

/-- Helper: a value produced by the JavaScript `||` chain is one of its
operands. -/
theorem jsOrS_eq_some (a b : Option String) (p : String)
    (h : jsOrS a b = some p) : a = some p ∨ b = some p := by
  cases a with
  | none => exact Or.inr h
  | some s =>
    by_cases hs : s = ""
    · simp [jsOrS, hs] at h
      exact Or.inr h
    · simp [jsOrS, hs] at h
      exact Or.inl (by rw [h])

/-- C5 counterexample: the claim says that whenever an accompanying
participant/senderPn field carries "@s.whatsapp.net" the resolved phone
is that field's local part; here `key.participant` carries the suffix,
but the code consults only the first truthy field of the chain
`senderPn || key.participant || msg.participant` — `senderPn`, which
lacks the suffix — so resolution falls back to the anonymized
identifier's local part "555" instead of "123". -/
theorem c5_counterexample :
    strIncludes mLid.key.remoteJid "@lid" = true ∧
    mLid.key.participant = some "123@s.whatsapp.net" ∧
    strIncludes "123@s.whatsapp.net" "@s.whatsapp.net" = true ∧
    strTakeBefore "123@s.whatsapp.net" '@' = "123" ∧
    resolvePhone mLid = "555" ∧ resolvePhone mLid ≠ "123" := by
  decide

/-- C5 amended: for an anonymized ("@lid") sender, the code consults
only the first truthy field of `senderPn || key.participant ||
msg.participant`: when that field carries "@s.whatsapp.net" the
resolved phone is its local part; when that field lacks the suffix —
regardless of whether a later field of the chain carries it — and when
the chain is empty, the resolved phone is the anonymized identifier's
own local part before "@"; in particular this fallback holds whenever
no accompanying field at all carries the suffix. -/
theorem c5_lid_resolution (m : InboundMsg)
    (hlid : strIncludes m.key.remoteJid "@lid" = true) :
    (∀ p, jsOrS m.key.senderPn (jsOrS m.key.participant m.participant) = some p →
      strIncludes p "@s.whatsapp.net" = true →
      resolvePhone m = strTakeBefore p '@') ∧
    (∀ p, jsOrS m.key.senderPn (jsOrS m.key.participant m.participant) = some p →
      strIncludes p "@s.whatsapp.net" = false →
      resolvePhone m = strTakeBefore m.key.remoteJid '@') ∧
    (jsOrS m.key.senderPn (jsOrS m.key.participant m.participant) = none →
      resolvePhone m = strTakeBefore m.key.remoteJid '@') ∧
    ((∀ p, (m.key.senderPn = some p ∨ m.key.participant = some p ∨
        m.participant = some p) → strIncludes p "@s.whatsapp.net" = false) →
      resolvePhone m = strTakeBefore m.key.remoteJid '@') := by
  have hchain : ∀ p,
      jsOrS m.key.senderPn (jsOrS m.key.participant m.participant) = some p →
      m.key.senderPn = some p ∨ m.key.participant = some p ∨
        m.participant = some p := by
    intro p hpn
    rcases jsOrS_eq_some _ _ _ hpn with h1 | h1
    · exact Or.inl h1
    · rcases jsOrS_eq_some _ _ _ h1 with h2 | h2
      · exact Or.inr (Or.inl h2)
      · exact Or.inr (Or.inr h2)
  refine ⟨?_, ?_, ?_, ?_⟩
  · intro p hpn hinc
    have hp : p ≠ "" := by
      intro he
      rw [he] at hinc
      exact absurd hinc (by decide)
    unfold resolvePhone
    rw [if_pos hlid, hpn]
    simp [hp, hinc]
  · intro p hpn hinc
    unfold resolvePhone
    rw [if_pos hlid, hpn]
    simp [hinc]
  · intro hpn
    unfold resolvePhone
    rw [if_pos hlid, hpn]
  · intro h
    unfold resolvePhone
    rw [if_pos hlid]
    cases hpn : jsOrS m.key.senderPn (jsOrS m.key.participant m.participant) with
    | none => rfl
    | some p => simp [h p (hchain p hpn)]

/-- Witness for `c5_lid_resolution` at three concrete anonymized
senders: a suffixed first field resolves to its local part; an
unsuffixed first field falls back to the lid local part even though a
later field carries the suffix; an empty chain falls back too. -/
theorem c5_lid_resolution_witness :
    (strIncludes mLidPn.key.remoteJid "@lid" = true ∧
      jsOrS mLidPn.key.senderPn (jsOrS mLidPn.key.participant mLidPn.participant) =
        some "321@s.whatsapp.net" ∧
      strIncludes "321@s.whatsapp.net" "@s.whatsapp.net" = true ∧
      jsOrS mLid.key.senderPn (jsOrS mLid.key.participant mLid.participant) =
        some "9@lid" ∧
      strIncludes "9@lid" "@s.whatsapp.net" = false ∧
      jsOrS mLidBare.key.senderPn (jsOrS mLidBare.key.participant mLidBare.participant) =
        none) ∧
    resolvePhone mLidPn = strTakeBefore "321@s.whatsapp.net" '@' ∧
    resolvePhone mLid = strTakeBefore mLid.key.remoteJid '@' ∧
    resolvePhone mLidBare = strTakeBefore mLidBare.key.remoteJid '@' ∧
    resolvePhone mLidBare = strTakeBefore mLidBare.key.remoteJid '@' :=
  ⟨⟨by decide, by decide, by decide, by decide, by decide, by decide⟩,
    (c5_lid_resolution mLidPn (by decide)).1 "321@s.whatsapp.net"
      (by decide) (by decide),
    (c5_lid_resolution mLid (by decide)).2.1 "9@lid" (by decide) (by decide),
    (c5_lid_resolution mLidBare (by decide)).2.2.1 (by decide),
    (c5_lid_resolution mLidBare (by decide)).2.2.2
      (fun p hp => by rcases hp with h1 | h1 | h1 <;> simp [mLidBare] at h1)⟩

/-! ### Claim C6: responses of the `send` / `test_msg` route -/

/-- C6: for every `send` / `test_msg` request, no connectivity yields
the 500 server error "Bridge not connected"; connectivity with an
unresolvable target (absent, or falsy-empty — for `test_msg` including
the case of no own number) yields the 400 client error "No target
number"; connectivity with a truthy resolved target yields a success
response carrying the assigned message identifier. -/
theorem c6_send_route (action : String) (queryTo queryMessage ownId : Option String)
    (assignedId : String) :
    ((handleSend action queryTo queryMessage false ownId assignedId).httpStatus = 500 ∧
     (handleSend action queryTo queryMessage false ownId assignedId).errorMsg =
       some "Bridge not connected") ∧
    ((resolveTarget action queryTo ownId = none ∨
        resolveTarget action queryTo ownId = some "") →
      (handleSend action queryTo queryMessage true ownId assignedId).httpStatus = 400 ∧
      (handleSend action queryTo queryMessage true ownId assignedId).errorMsg =
        some "No target number") ∧
    (∀ t, resolveTarget action queryTo ownId = some t → t ≠ "" →
      (handleSend action queryTo queryMessage true ownId assignedId).httpStatus = 200 ∧
      (handleSend action queryTo queryMessage true ownId assignedId).messageId =
        some assignedId ∧
      (handleSend action queryTo queryMessage true ownId assignedId).errorMsg = none) := by
  refine ⟨⟨by simp [handleSend], by simp [handleSend]⟩, ?_, ?_⟩
  · intro h
    rcases h with h | h <;> simp [handleSend, h]
  · intro t ht hne
    simp [handleSend, ht, hne]

/-- Witness for `c6_send_route` at the concrete connected request
`action=send&to=055 123` with assigned id "ID1". -/
theorem c6_send_route_witness :
    (resolveTarget "send" (some "055 123") none = some "055 123" ∧
      "055 123" ≠ "") ∧
    ((handleSend "send" (some "055 123") none true none "ID1").httpStatus = 200 ∧
     (handleSend "send" (some "055 123") none true none "ID1").messageId =
       some "ID1" ∧
     (handleSend "send" (some "055 123") none true none "ID1").errorMsg = none) :=
  ⟨⟨by decide, by decide⟩,
    (c6_send_route "send" (some "055 123") none none "ID1").2.2 "055 123"
      (by decide) (by decide)⟩

/-! ### Claim C10: the default message text -/

/-- C10: for every `send` / `test_msg` request that is connected and
resolves a truthy target but supplies no (truthy) `message` parameter,
the fixed default text "WHMCS Bridge Test Message" is both the text
handed to the socket for the target jid and the text logged outbound to
the admin system, with the digits-only target as logged phone. -/
theorem c10_default_text (action : String) (queryTo ownId queryMessage : Option String)
    (assignedId t : String)
    (h1 : resolveTarget action queryTo ownId = some t) (h2 : t ≠ "")
    (h3 : queryMessage = none ∨ queryMessage = some "") :
    (handleSend action queryTo queryMessage true ownId assignedId).sentText =
      some "WHMCS Bridge Test Message" ∧
    (handleSend action queryTo queryMessage true ownId assignedId).loggedText =
      some "WHMCS Bridge Test Message" ∧
    (handleSend action queryTo queryMessage true ownId assignedId).loggedPhone =
      some (digitsOnly t) ∧
    (handleSend action queryTo queryMessage true ownId assignedId).targetJid =
      some (digitsOnly t ++ "@s.whatsapp.net") := by
  rcases h3 with h3 | h3 <;>
    simp [handleSend, h1, h2, h3, jsOrDefault]

/-- Witness for `c10_default_text` at a connected `test_msg` request
with no explicit target and no message parameter: the target falls back
to the bridge's own number. -/
theorem c10_default_text_witness :
    (resolveTarget "test_msg" none (some "9715551234:5@s.whatsapp.net") =
       some "9715551234" ∧ "9715551234" ≠ "") ∧
    ((handleSend "test_msg" none none true
        (some "9715551234:5@s.whatsapp.net") "ID2").sentText =
      some "WHMCS Bridge Test Message" ∧
     (handleSend "test_msg" none none true
        (some "9715551234:5@s.whatsapp.net") "ID2").loggedText =
      some "WHMCS Bridge Test Message" ∧
     (handleSend "test_msg" none none true
        (some "9715551234:5@s.whatsapp.net") "ID2").loggedPhone =
      some (digitsOnly "9715551234") ∧
     (handleSend "test_msg" none none true
        (some "9715551234:5@s.whatsapp.net") "ID2").targetJid =
      some (digitsOnly "9715551234" ++ "@s.whatsapp.net")) :=
  ⟨⟨by decide, by decide⟩,
    c10_default_text "test_msg" none (some "9715551234:5@s.whatsapp.net") none
      "ID2" "9715551234" (by decide) (by decide) (Or.inl rfl)⟩

/-! ### Claim C8: admin linkage on the `status` route -/

/-- C8: a status request supplying a truthy key and a truthy admin URL
while no linkage exists adopts both values and triggers the AI-settings
fetch, with the referrer step never firing whatever the referrer is
(explicit parameter takes priority); and — for every request — the
referrer step fires only when the admin URL is still empty after the
explicit step and the referrer contains "addonmodules.php". -/
theorem c8_status_linkage (k u : String) (referer : Option String)
    (apiKey0 : String) (hk : k ≠ "") (hu : u ≠ "") :
    ((statusLinkage (some k) (some u) referer apiKey0 "").apiKey = k ∧
     (statusLinkage (some k) (some u) referer apiKey0 "").adminUrl = u ∧
     (statusLinkage (some k) (some u) referer apiKey0 "").fetchedExplicit = true ∧
     (statusLinkage (some k) (some u) referer apiKey0 "").fetchedReferer = false) ∧
    (∀ qk qu r k0 a0, (statusLinkage qk qu r k0 a0).fetchedReferer = true →
      (explicitAdminUrl qu a0).1 = "" ∧
      ∃ ref, r = some ref ∧ strIncludes ref "addonmodules.php" = true) := by
  constructor
  · have he : explicitAdminUrl (some u) "" = (u, true) := by
      simp [explicitAdminUrl, hu, Ne.symm hu]
    have hkey : (statusLinkage (some k) (some u) referer apiKey0 "").apiKey = k := by
      by_cases hke : k = apiKey0
      · simp [statusLinkage, hke]
      · simp [statusLinkage, hk, hke]
    refine ⟨hkey, ?_, ?_, ?_⟩ <;>
      cases referer <;> simp [statusLinkage, he, hu]
  · intro qk qu r k0 a0 h
    cases r with
    | none => simp [statusLinkage] at h
    | some ref =>
      by_cases hc : (explicitAdminUrl qu a0).1 = "" ∧ ref ≠ "" ∧
          strIncludes ref "addonmodules.php" = true
      · exact ⟨hc.1, ref, rfl, hc.2.2⟩
      · simp only [statusLinkage, if_neg hc] at h
        exact absurd h (by simp)

/-- Witness for `c8_status_linkage` at the concrete fresh-linkage
request `admin_url=https://x.test/addon.php&key=ABC` against the
default key and a same-site referrer. -/
theorem c8_status_linkage_witness :
    ("ABC" ≠ "" ∧ "https://x.test/addon.php" ≠ "") ∧
    ((statusLinkage (some "ABC") (some "https://x.test/addon.php")
        (some "https://x.test/addonmodules.php?module=wa")
        "your_secret_key" "").apiKey = "ABC" ∧
     (statusLinkage (some "ABC") (some "https://x.test/addon.php")
        (some "https://x.test/addonmodules.php?module=wa")
        "your_secret_key" "").adminUrl = "https://x.test/addon.php" ∧
     (statusLinkage (some "ABC") (some "https://x.test/addon.php")
        (some "https://x.test/addonmodules.php?module=wa")
        "your_secret_key" "").fetchedExplicit = true ∧
     (statusLinkage (some "ABC") (some "https://x.test/addon.php")
        (some "https://x.test/addonmodules.php?module=wa")
        "your_secret_key" "").fetchedReferer = false) :=
  ⟨⟨by decide, by decide⟩,
    (c8_status_linkage "ABC" "https://x.test/addon.php"
      (some "https://x.test/addonmodules.php?module=wa") "your_secret_key"
      (by decide) (by decide)).1⟩

end WhmcsBridge
